import Mathlib

/-!
Shallow embedding of `ensto_bridge.py` (ensto-ble-mqtt-bridge): the telemetry
payload codec `parse_real_time_data`, the credential store
(`load_device_data` / `save_device_data`, with the hex encoding used for the
factory id), the per-device session `process_device` (handshake logic), and
the poll scheduler loop `run`.  Machine integers are modelled as `Nat`/`Int`,
Python floats as `ℚ`, Python exceptions as `Except`, and the filesystem and
the BLE transport as explicit state and oracles in an environment record.

Rational arithmetic is written with the evaluable wrappers `qAdd`, `qSub`,
`qMul`, `qDiv` (built on `Rat.divInt`, which reduces definitionally) so that
concrete frames can be decoded by `decide`; the lemmas `qAdd_eq`, `qSub_eq`,
`qMul_eq`, `qDiv_eq` identify them with the field operations of `ℚ`.
-/

/-- Addition on `ℚ` in a form the kernel evaluates (see `qAdd_eq`). -/
def qAdd (a b : ℚ) : ℚ :=
  Rat.divInt (a.num * b.den + b.num * a.den) ((a.den : Int) * b.den)

/-- Subtraction on `ℚ` in a form the kernel evaluates (see `qSub_eq`). -/
def qSub (a b : ℚ) : ℚ :=
  Rat.divInt (a.num * b.den - b.num * a.den) ((a.den : Int) * b.den)

/-- Multiplication on `ℚ` in a form the kernel evaluates (see `qMul_eq`). -/
def qMul (a b : ℚ) : ℚ :=
  Rat.divInt (a.num * b.num) ((a.den : Int) * b.den)

/-- Division on `ℚ` in a form the kernel evaluates (see `qDiv_eq`). -/
def qDiv (a b : ℚ) : ℚ :=
  Rat.divInt (a.num * b.den) ((a.den : Int) * b.num)

/-- `bytes[a:b]` for `0 ≤ a ≤ b`: Python slicing never raises. -/
def listSlice (l : List Nat) (a b : Nat) : List Nat :=
  (l.drop a).take (b - a)

/-- `int.from_bytes(bs, byteorder='little')`. -/
def intFromBytesLE (bs : List Nat) : Nat :=
  bs.foldr (fun b acc => b + 256 * acc) 0

/-- `int.from_bytes(bs, byteorder='little', signed=True)`. -/
def intFromBytesLESigned (bs : List Nat) : Int :=
  let u := intFromBytesLE bs
  if 2 * u < 256 ^ bs.length then (u : Int) else (u : Int) - 256 ^ bs.length

/-- Floor of a rational, computed from its reduced numerator and denominator
(Euclidean division by the positive denominator). -/
def ratFloor (x : ℚ) : Int :=
  Int.ediv x.num (x.den : Int)

/-- Round a rational to the nearest integer, ties to even — the rounding mode
of Python's builtin `round` (floats idealised as exact rationals). -/
def pyRoundHalfEven (x : ℚ) : Int :=
  let f := ratFloor x
  let r := qSub x (f : ℚ)
  if r < mkRat 1 2 then f
  else if mkRat 1 2 < r then f + 1
  else if f % 2 = 0 then f else f + 1

/-- Python `round(x, 1)`. -/
def pyRound1 (x : ℚ) : ℚ :=
  qDiv ((pyRoundHalfEven (qMul x 10) : Int) : ℚ) 10

/-- The decoded telemetry reading (the dict built by `parse_real_time_data`
when the frame is long enough). -/
structure Reading where
  target_temperature : ℚ
  room_temperature : ℚ
  floor_temperature : ℚ
  relay_active : Bool
deriving DecidableEq

/-- `EnstoBridge.parse_real_time_data` (ensto_bridge.py lines 196-231).
`none` models the empty dict `{}` returned for frames shorter than 10 bytes:
`raw_target` is the unsigned little-endian integer of `data[0:4]`, the target
temperature is `round(5.0 + (raw_target - 13038) * (30.0 / 115160.0), 1)`,
room and floor temperatures are the signed little-endian integers of
`data[4:6]` and `data[6:8]` divided by 10, and the relay flag is
`bool(data[13])` when the frame has an index 13 and `False` otherwise. -/
def parse_real_time_data (data : List Nat) : Option Reading :=
  if data.length < 10 then none
  else
    let raw_target := intFromBytesLE (listSlice data 0 4)
    let target_temp :=
      pyRound1 (qAdd 5 (qMul (qSub (raw_target : ℚ) 13038) (qDiv 30 115160)))
    let room_temp := qDiv ((intFromBytesLESigned (listSlice data 4 6) : Int) : ℚ) 10
    let floor_temp := qDiv ((intFromBytesLESigned (listSlice data 6 8) : Int) : ℚ) 10
    let relay_active := if data.length > 13 then data.getD 13 0 != 0 else false
    some ⟨target_temp, room_temp, floor_temp, relay_active⟩

/-- Python indexing `data[i]` for `i ≥ 0`: raises `IndexError` out of bounds. -/
def pyIndex (data : List Nat) (i : Nat) : Except Unit Nat :=
  if i < data.length then .ok (data.getD i 0) else .error ()

/-- `parse_real_time_data` with Python's possible exceptions made explicit:
slicing and `int.from_bytes` are total, and the one direct index `data[13]`
is guarded by `len(data) > 13`. -/
def parse_real_time_dataE (data : List Nat) : Except Unit (Option Reading) :=
  if data.length < 10 then .ok none
  else
    let raw_target := intFromBytesLE (listSlice data 0 4)
    let target_temp :=
      pyRound1 (qAdd 5 (qMul (qSub (raw_target : ℚ) 13038) (qDiv 30 115160)))
    let room_temp := qDiv ((intFromBytesLESigned (listSlice data 4 6) : Int) : ℚ) 10
    let floor_temp := qDiv ((intFromBytesLESigned (listSlice data 6 8) : Int) : ℚ) 10
    if data.length > 13 then
      match pyIndex data 13 with
      | .error e => .error e
      | .ok b => .ok (some ⟨target_temp, room_temp, floor_temp, b != 0⟩)
    else .ok (some ⟨target_temp, room_temp, floor_temp, false⟩)

example : parse_real_time_data [218,19,1,0,215,0,198,0,0,0,0,0,0,1]
    = some ⟨mkRat 20 1, mkRat 43 2, mkRat 99 5, true⟩ := by decide

/-- The hexadecimal digit characters produced by Python's `bytes.hex()`
(lowercase). Argument is a nibble `0..15`. -/
def hexDigit (n : Nat) : Char :=
  if n < 10 then Char.ofNat (48 + n) else Char.ofNat (87 + n)

/-- `bytes.hex()`: two lowercase hex digits per byte, no separators. -/
def hexEncode (bs : List Nat) : String :=
  String.mk (bs.flatMap fun b => [hexDigit (b / 16), hexDigit (b % 16)])

/-- Value of one hexadecimal digit character, accepting `0-9a-fA-F`. -/
def hexDigitVal (c : Char) : Option Nat :=
  if 48 ≤ c.toNat ∧ c.toNat ≤ 57 then some (c.toNat - 48)
  else if 97 ≤ c.toNat ∧ c.toNat ≤ 102 then some (c.toNat - 87)
  else if 65 ≤ c.toNat ∧ c.toNat ≤ 70 then some (c.toNat - 55)
  else none

/-- Worker for `hexDecode`: spaces between byte pairs are skipped, each byte
is two adjacent hex digits; anything else raises `ValueError` (`none`). -/
def hexDecodeAux : List Char → Option (List Nat)
  | [] => some []
  | c :: rest =>
    if c = ' ' then hexDecodeAux rest
    else
      match rest with
      | [] => none
      | c2 :: rest2 =>
        match hexDigitVal c, hexDigitVal c2 with
        | some hi, some lo => (hexDecodeAux rest2).map fun bs => (16 * hi + lo) :: bs
        | _, _ => none

/-- `bytes.fromhex(s)`: `none` models the `ValueError` raised on malformed
input. `bytes.fromhex("")` succeeds and yields the empty byte string. -/
def hexDecode (s : String) : Option (List Nat) :=
  hexDecodeAux s.data

/-- State of the storage file `ensto_devices.json`: absent, present but not
valid JSON, or a JSON document holding an address → hex-credential mapping
(a Python dict, modelled as an association list; `json.dump`/`json.load`
round-trip such a document faithfully). -/
inductive FileState where
  | missing
  | corrupt
  | content (m : List (String × String))
deriving DecidableEq

/-- Python-level errors raised by the storage and transport layers. -/
inductive PyErr where
  | fileNotFound
  | jsonError
  | ioError
deriving DecidableEq

/-- `open(STORAGE_FILE, 'r')` followed by `json.load`: raises
`FileNotFoundError` on a missing file and a JSON error on corrupt content. -/
def readStorageFile : FileState → Except PyErr (List (String × String))
  | .missing => .error .fileNotFound
  | .corrupt => .error .jsonError
  | .content m => .ok m

/-- `EnstoBridge.load_device_data` (ensto_bridge.py lines 65-73):
`FileNotFoundError` yields `{}`; any other load failure is logged and also
yields `{}`. -/
def load_device_data (fs : FileState) : List (String × String) :=
  match readStorageFile fs with
  | .ok m => m
  | .error .fileNotFound => []
  | .error _ => []

/-- `load_device_data` with the caught exceptions made explicit: the
`try/except` turns every outcome into a normal return. -/
def load_device_dataE (fs : FileState) : Except PyErr (List (String × String)) :=
  match readStorageFile fs with
  | .ok m => .ok m
  | .error .fileNotFound => .ok []
  | .error _ => .ok []

/-- `open(STORAGE_FILE, 'w')` followed by `json.dump`: the whole document is
rewritten; `writeOk = false` models an I/O failure (file left unchanged). -/
def writeStorageFile (writeOk : Bool) (fs : FileState)
    (m : List (String × String)) : Except PyErr FileState :=
  if writeOk then .ok (.content m) else .error .ioError

/-- `EnstoBridge.save_device_data` (ensto_bridge.py lines 75-80): a write
failure is logged, not raised. Returns the resulting file state. -/
def save_device_data (writeOk : Bool) (fs : FileState)
    (m : List (String × String)) : FileState :=
  match writeStorageFile writeOk fs m with
  | .ok fs2 => fs2
  | .error _ => fs

/-- `save_device_data` with the caught exception made explicit. -/
def save_device_dataE (writeOk : Bool) (fs : FileState)
    (m : List (String × String)) : Except PyErr FileState :=
  match writeStorageFile writeOk fs m with
  | .ok fs2 => .ok fs2
  | .error _ => .ok fs

/-- Python dict lookup `d.get(k)` on the association-list model. -/
def lookupStore (k : String) : List (String × String) → Option String
  | [] => none
  | (k', v) :: rest => if k' = k then some v else lookupStore k rest

/-- Python dict assignment `d[k] = v` on the association-list model. -/
def insertStore (k v : String) : List (String × String) → List (String × String)
  | [] => [(k, v)]
  | (k', v') :: rest =>
    if k' = k then (k, v) :: rest else (k', v') :: insertStore k v rest

/-- Python truthiness of the `factory_id_bytes` variable: `None` and the
empty byte string `b''` are falsy, non-empty bytes are truthy. -/
def pyTruthyBytes : Option (List Nat) → Bool
  | none => false
  | some [] => false
  | some (_ :: _) => true

/-- Environment of one run of `EnstoBridge.process_device`: the oracle
results of the scan, the connection, the two GATT reads, the credential
write and the storage write, together with the storage file state on entry.
`deviceRead` is the unauthenticated read of the factory-id characteristic,
`telemetry` the read of the real-time indication characteristic; `.error`
models the corresponding Python exception. -/
structure SessionEnv where
  addr : String
  found : Bool
  connected : Bool
  fileState : FileState
  deviceRead : Except Unit (List Nat)
  saveOk : Bool
  writeOk : Bool
  telemetry : Except Unit (List Nat)

/-- Exit point of one `process_device` run. -/
inductive Outcome where
  | notFound
  | connectFailed
  | handshakeNoCredential
  | handshakeWriteFailed
  | telemetryFailed
  | completed (reading : Option Reading)
deriving DecidableEq

/-- Observable result of one `process_device` run: final storage file state,
whether the unauthenticated factory-id read was attempted, the credential
written during the handshake (if any), how many handshake writes were
attempted, whether the telemetry characteristic was read, whether a reading
was published, and the exit point. -/
structure SessionResult where
  fileState : FileState
  deviceReadAttempted : Bool
  credentialUsed : Option (List Nat)
  writeAttempts : Nat
  telemetryAttempted : Bool
  published : Bool
  outcome : Outcome
deriving DecidableEq

/-- Lines 142-154 of `process_device`: `stored_data = self.load_device_data()`,
`device_id_hex = stored_data.get(device.address)`, and if that is truthy
(a non-empty string), `bytes.fromhex` with `ValueError` caught. -/
def stored_factory_id (env : SessionEnv) : Option (List Nat) :=
  match lookupStore env.addr (load_device_data env.fileState) with
  | some h => if h = "" then none else hexDecode h
  | none => none

/-- Lines 155-170 of `process_device`: when `factory_id_bytes` is falsy,
read the factory id from the device (exceptions caught and logged); an
all-zero value is rejected (`factory_id_bytes = None`), a non-zero value is
stored via `save_device_data`. Returns the `factory_id_bytes` variable, the
resulting storage file state, and whether the device read was attempted. -/
def acquire_factory_id (env : SessionEnv) :
    Option (List Nat) × FileState × Bool :=
  let factory0 := stored_factory_id env
  if pyTruthyBytes factory0 then (factory0, env.fileState, false)
  else
    match env.deviceRead with
    | .error _ => (factory0, env.fileState, true)
    | .ok bs =>
      if bs.all (fun b => b == 0) then (none, env.fileState, true)
      else
        (some bs,
         save_device_data env.saveOk env.fileState
           (insertStore env.addr (hexEncode bs) (load_device_data env.fileState)),
         true)

/-- Lines 172-194 of `process_device`: with a truthy `factory_id_bytes`,
write it back to the factory-id characteristic (a failed write is logged and
the method returns); then read and parse the real-time indication and
publish the result (a failed read is logged). A falsy `factory_id_bytes`
ends the session with the "please put device in pairing mode" error. -/
def handshake_and_read (env : SessionEnv) (factoryId : Option (List Nat))
    (fs1 : FileState) (readAtt : Bool) : SessionResult :=
  if pyTruthyBytes factoryId then
    match factoryId with
    | some bs =>
      if env.writeOk then
        match env.telemetry with
        | .ok data =>
          ⟨fs1, readAtt, some bs, 1, true, true, .completed (parse_real_time_data data)⟩
        | .error _ => ⟨fs1, readAtt, some bs, 1, true, false, .telemetryFailed⟩
      else ⟨fs1, readAtt, some bs, 1, false, false, .handshakeWriteFailed⟩
    | none => ⟨fs1, readAtt, none, 0, false, false, .handshakeNoCredential⟩
  else ⟨fs1, readAtt, none, 0, false, false, .handshakeNoCredential⟩

/-- `EnstoBridge.process_device` (ensto_bridge.py lines 115-194): scan for
the device, connect, perform the credential handshake, then read, parse and
publish the telemetry. -/
def process_device (env : SessionEnv) : SessionResult :=
  if env.found = false then
    ⟨env.fileState, false, none, 0, false, false, .notFound⟩
  else if env.connected = false then
    ⟨env.fileState, false, none, 0, false, false, .connectFailed⟩
  else
    let acq := acquire_factory_id env
    handshake_and_read env acq.1 acq.2.1 acq.2.2

/-- One observable event of the scheduler loop `EnstoBridge.run`. -/
inductive PollEvent where
  | processed (d : String)
  | errorLogged (d : String)
  | slept (secs : Nat)
deriving DecidableEq

/-- One iteration of the `while True:` body of `EnstoBridge.run` (lines
90-98): each configured device is processed in configuration order, any
exception from `process_device` is caught and logged, and the cycle ends
with `asyncio.sleep(POLL_INTERVAL)`. `fails d = true` means the session for
device `d` raised. -/
def run_cycle (devices : List String) (fails : String → Bool)
    (poll : Nat) : List PollEvent :=
  (devices.map fun d =>
    if fails d then PollEvent.errorLogged d else PollEvent.processed d)
    ++ [PollEvent.slept poll]

/-- The first `n` iterations of the unbounded `while True:` loop of
`EnstoBridge.run`; `fails` gives each cycle's per-device failures. -/
def run_trace (devices : List String) (fails : Nat → String → Bool)
    (poll : Nat) : Nat → List PollEvent
  | 0 => []
  | n + 1 => run_trace devices fails poll n ++ run_cycle devices (fails n) poll

/-- The device an event concerns, if any. -/
def eventDevice : PollEvent → Option String
  | .processed d => some d
  | .errorLogged d => some d
  | .slept _ => none
/-! ## Bridge lemmas for the evaluable rational arithmetic -/

theorem qAdd_eq (a b : ℚ) : qAdd a b = a + b := by
  rw [qAdd, Rat.add_num_den a b]
  congr 1
  ring

theorem qSub_eq (a b : ℚ) : qSub a b = a - b := by
  rw [qSub]
  conv_rhs => rw [sub_eq_add_neg, Rat.add_num_den a (-b), Rat.num_neg_eq_neg_num,
    Rat.den_neg_eq_den]
  congr 1
  ring

theorem qMul_eq (a b : ℚ) : qMul a b = a * b := by
  rw [qMul, Rat.divInt_eq_div]
  push_cast
  rw [← div_mul_div_comm, Rat.num_div_den, Rat.num_div_den]

theorem qDiv_eq (a b : ℚ) : qDiv a b = a / b := by
  rw [qDiv, Rat.div_def' a b]
/-- The Layout A sample frame of the spec: raw target 70618, room raw +215,
floor raw +198, relay byte 1 at offset 13. -/
def sampleFrameA : List Nat := [218, 19, 1, 0, 215, 0, 198, 0, 0, 0, 0, 0, 0, 1]

/-- C1: for every buffer of length at least 14, `parse_real_time_data`
decodes Layout A: the target temperature is
`round(5.0 + (u - 13038) * 30.0 / 115160.0, 1)` for `u` the unsigned
little-endian integer of bytes 0-3, the room and floor temperatures are the
signed little-endian integers of bytes 4-5 and 6-7 divided by 10, and the
relay is active iff byte 13 is non-zero; on the sample vector with raw
target 70618, room raw +215, floor raw +198 and relay byte 1 the result is
target 20.0, room 21.5, floor 19.8, relay true. -/
theorem C1_layoutA_decode :
    (∀ data : List Nat, 14 ≤ data.length →
      parse_real_time_data data = some
        ⟨pyRound1 (5 + ((intFromBytesLE (listSlice data 0 4) : ℚ) - 13038) * (30 / 115160)),
         (intFromBytesLESigned (listSlice data 4 6) : ℚ) / 10,
         (intFromBytesLESigned (listSlice data 6 8) : ℚ) / 10,
         data.getD 13 0 != 0⟩)
    ∧ parse_real_time_data sampleFrameA = some ⟨20, 43/2, 99/5, true⟩ := by
  constructor
  · intro data h
    simp only [parse_real_time_data]
    rw [if_neg (by omega), if_pos (by omega)]
    simp only [qAdd_eq, qSub_eq, qMul_eq, qDiv_eq]
  · have h : parse_real_time_data sampleFrameA
        = some ⟨mkRat 20 1, mkRat 43 2, mkRat 99 5, true⟩ := by decide
    rw [h]
    simp only [Rat.mkRat_eq_divInt, Rat.divInt_eq_div]
    norm_num

/-- Witness for C1: the general Layout A statement applied to the concrete
sample frame. -/
theorem C1_layoutA_decode_witness :
    parse_real_time_data sampleFrameA = some ⟨mkRat 20 1, mkRat 43 2, mkRat 99 5, true⟩ := by
  rw [C1_layoutA_decode.1 sampleFrameA (by decide)]
  simp only [← qAdd_eq, ← qSub_eq, ← qMul_eq, ← qDiv_eq]
  decide

/-- C2: every buffer shorter than 10 bytes decodes to the empty result, and
`parse_real_time_data` never raises on any buffer (its exception-explicit
version always returns `.ok`). -/
theorem C2_short_buffer_empty_no_raise : ∀ data : List Nat,
    parse_real_time_dataE data = .ok (parse_real_time_data data)
    ∧ (data.length < 10 → parse_real_time_data data = none) := by
  intro data
  constructor
  · by_cases h10 : data.length < 10
    · simp [parse_real_time_dataE, parse_real_time_data, h10]
    · by_cases h13 : data.length > 13
      · simp [parse_real_time_dataE, parse_real_time_data, pyIndex, h10, h13]
      · simp [parse_real_time_dataE, parse_real_time_data, h10, h13]
  · intro h
    simp [parse_real_time_data, h]

/-- Witness for C2: a 3-byte buffer decodes to the empty result and raises
no exception. -/
theorem C2_short_buffer_empty_no_raise_witness :
    parse_real_time_dataE [0, 1, 2] = .ok (parse_real_time_data [0, 1, 2])
    ∧ parse_real_time_data [0, 1, 2] = none :=
  ⟨(C2_short_buffer_empty_no_raise [0, 1, 2]).1,
   (C2_short_buffer_empty_no_raise [0, 1, 2]).2 (by decide)⟩

/-- C10: for buffers of length 10 to 13, `parse_real_time_data` returns a
full reading with the three temperatures decoded from bytes 0-7 as usual and
`relay_active = false` (the relay field defaults to inactive rather than
being absent). -/
theorem C10_short_frame_relay_default (data : List Nat)
    (h1 : 10 ≤ data.length) (h2 : data.length ≤ 13) :
    parse_real_time_data data = some
      ⟨pyRound1 (5 + ((intFromBytesLE (listSlice data 0 4) : ℚ) - 13038) * (30 / 115160)),
       (intFromBytesLESigned (listSlice data 4 6) : ℚ) / 10,
       (intFromBytesLESigned (listSlice data 6 8) : ℚ) / 10,
       false⟩ := by
  simp only [parse_real_time_data]
  rw [if_neg (by omega), if_neg (by omega)]
  simp only [qAdd_eq, qSub_eq, qMul_eq, qDiv_eq]

/-- The Layout A sample truncated to 10 bytes (no relay byte). -/
def sampleFrame10 : List Nat := [218, 19, 1, 0, 215, 0, 198, 0, 0, 0]

/-- Witness for C10: the 10-byte truncation of the sample frame yields the
full reading with the relay inactive. -/
theorem C10_short_frame_relay_default_witness :
    parse_real_time_data sampleFrame10
      = some ⟨mkRat 20 1, mkRat 43 2, mkRat 99 5, false⟩ := by
  rw [C10_short_frame_relay_default sampleFrame10 (by decide) (by decide)]
  simp only [← qAdd_eq, ← qSub_eq, ← qMul_eq, ← qDiv_eq]
  decide
/-- A 20-byte frame carrying the spec's Layout B sample values: 2-byte
target raw 215 at bytes 0-1, room raw -50, relay byte 0 at offset 7 (and a
1 at offset 13, where Layout A reads the relay). -/
def sampleFrameB : List Nat :=
  [215, 0, 0, 0, 206, 255, 0, 0, 120, 0, 0, 0, 0, 1, 0, 0, 0, 0, 0, 0]

/-- Counterexample to C3: `parse_real_time_data` takes no layout flag and
has no Layout B path. On a 20-byte frame whose 2-byte target raw is 215 and
whose byte at offset 7 is zero, it decodes by the Layout A rules: target 1.7
(not the Layout B value 21.5) and relay true (read from offset 13, not from
offset 7, whose byte is zero). -/
theorem C3_layoutB_counterexample :
    parse_real_time_data sampleFrameB
      = some ⟨mkRat 17 10, mkRat (-5) 1, mkRat 0 1, true⟩
    ∧ sampleFrameB.getD 7 0 = 0
    ∧ (mkRat 17 10 : ℚ) ≠ 43 / 2 := by
  refine ⟨by decide, by decide, ?_⟩
  simp only [Rat.mkRat_eq_divInt, Rat.divInt_eq_div]
  norm_num

/-- C3 amended: the codec supports a single layout only. There is no layout
selection flag, and every frame of length at least 20 (Layout B's minimum)
is decoded by the Layout A rules: 4-byte target via the calibrated linear
map, room/floor at bytes 4-5 and 6-7, relay at offset 13. -/
theorem C3_amended_single_layout (data : List Nat) (h : 20 ≤ data.length) :
    parse_real_time_data data = some
      ⟨pyRound1 (5 + ((intFromBytesLE (listSlice data 0 4) : ℚ) - 13038) * (30 / 115160)),
       (intFromBytesLESigned (listSlice data 4 6) : ℚ) / 10,
       (intFromBytesLESigned (listSlice data 6 8) : ℚ) / 10,
       data.getD 13 0 != 0⟩ := by
  simp only [parse_real_time_data]
  rw [if_neg (by omega), if_pos (by omega)]
  simp only [qAdd_eq, qSub_eq, qMul_eq, qDiv_eq]

/-- Witness for the amended C3: the Layout A rules applied to the 20-byte
Layout B sample frame. -/
theorem C3_amended_single_layout_witness :
    parse_real_time_data sampleFrameB
      = some ⟨mkRat 17 10, mkRat (-5) 1, mkRat 0 1, true⟩ := by
  rw [C3_amended_single_layout sampleFrameB (by decide)]
  simp only [← qAdd_eq, ← qSub_eq, ← qMul_eq, ← qDiv_eq]
  decide
/-- Each nibble's digit character decodes back to the nibble and is not the
space character skipped by `bytes.fromhex`. -/
theorem hexDigit_spec : ∀ n < 16, hexDigitVal (hexDigit n) = some n ∧ hexDigit n ≠ ' ' := by
  decide

/-- Decoding the character stream produced by `hexEncode` recovers the bytes. -/
theorem hexDecodeAux_hexEncode : ∀ bs : List Nat, (∀ b ∈ bs, b < 256) →
    hexDecodeAux (bs.flatMap fun b => [hexDigit (b / 16), hexDigit (b % 16)]) = some bs := by
  intro bs
  induction bs with
  | nil => intro _; rfl
  | cons b rest ih =>
    intro h
    have hb : b < 256 := h b (by simp)
    have h1 : b / 16 < 16 := by omega
    have h2 : b % 16 < 16 := Nat.mod_lt _ (by omega)
    have e1 := hexDigit_spec (b / 16) h1
    have e2 := hexDigit_spec (b % 16) h2
    have hrest := ih fun x hx => h x (List.mem_cons_of_mem _ hx)
    simp only [List.flatMap_cons, List.cons_append, List.singleton_append]
    rw [hexDecodeAux]
    rw [if_neg e1.2]
    simp only [e1.1, e2.1, List.nil_append, hrest, Option.map_some]
    have : 16 * (b / 16) + b % 16 = b := Nat.div_add_mod b 16
    rw [this]
    rfl

/-- `bytes.fromhex` inverts `bytes.hex` on every byte sequence. -/
theorem hexDecode_hexEncode (bs : List Nat) (h : ∀ b ∈ bs, b < 256) :
    hexDecode (hexEncode bs) = some bs :=
  hexDecodeAux_hexEncode bs h
/-- C8: credential store reads and writes never raise: a missing store file
yields the empty mapping, any other load failure (corrupt JSON) yields the
empty mapping, and the exception-explicit versions of
`load_device_data` / `save_device_data` always return `.ok`. -/
theorem C8_store_never_raises :
    load_device_data .missing = []
    ∧ load_device_data .corrupt = []
    ∧ (∀ fs, load_device_dataE fs = .ok (load_device_data fs))
    ∧ (∀ writeOk fs m, save_device_dataE writeOk fs m = .ok (save_device_data writeOk fs m)) := by
  refine ⟨rfl, rfl, ?_, ?_⟩
  · intro fs
    cases fs <;> rfl
  · intro writeOk fs m
    cases writeOk <;> rfl

/-- Looking up a key just inserted into the store finds the inserted value. -/
theorem lookupStore_insertStore_self (k v : String) :
    ∀ m, lookupStore k (insertStore k v m) = some v := by
  intro m
  induction m with
  | nil => simp [insertStore, lookupStore]
  | cons p rest ih =>
    obtain ⟨k', v'⟩ := p
    by_cases h : k' = k
    · simp [insertStore, lookupStore, h]
    · simp [insertStore, lookupStore, h, ih]

/-- C9: persisting a credential for an address as its hex encoding via
`save_device_data` and reloading the store via `load_device_data` yields the
stored hex string back, and decoding that hex string yields exactly the
original bytes. -/
theorem C9_credential_roundtrip (bs : List Nat) (fs : FileState) (addr : String)
    (h : ∀ b ∈ bs, b < 256) :
    lookupStore addr (load_device_data
        (save_device_data true fs (insertStore addr (hexEncode bs) (load_device_data fs))))
      = some (hexEncode bs)
    ∧ hexDecode (hexEncode bs) = some bs := by
  constructor
  · show lookupStore addr (insertStore addr (hexEncode bs) (load_device_data fs)) = _
    exact lookupStore_insertStore_self _ _ _
  · exact hexDecode_hexEncode bs h

/-- Witness for C9: a concrete credential `[171, 0, 16]` stored for a
concrete address in an initially missing store round-trips. -/
theorem C9_credential_roundtrip_witness :
    lookupStore "AA:BB" (load_device_data
        (save_device_data true .missing
          (insertStore "AA:BB" (hexEncode [171, 0, 16]) (load_device_data .missing))))
      = some (hexEncode [171, 0, 16])
    ∧ hexDecode (hexEncode [171, 0, 16]) = some [171, 0, 16] :=
  C9_credential_roundtrip [171, 0, 16] .missing "AA:BB" (by decide)
/-- `handshake_and_read` reports the read flag and file state it was given,
and attempts the credential write at most once. -/
theorem handshake_and_read_fields (env : SessionEnv) (f : Option (List Nat))
    (fs1 : FileState) (r : Bool) :
    (handshake_and_read env f fs1 r).deviceReadAttempted = r
    ∧ (handshake_and_read env f fs1 r).fileState = fs1
    ∧ (handshake_and_read env f fs1 r).writeAttempts ≤ 1 := by
  unfold handshake_and_read
  repeat' split
  all_goals refine ⟨rfl, rfl, ?_⟩
  all_goals simp

/-- When the credential write fails, `handshake_and_read` neither reads the
telemetry characteristic nor publishes, and does not complete. -/
theorem handshake_and_read_writeFail (env : SessionEnv) (f : Option (List Nat))
    (fs1 : FileState) (r : Bool) (hw : env.writeOk = false) :
    (handshake_and_read env f fs1 r).telemetryAttempted = false
    ∧ (handshake_and_read env f fs1 r).published = false
    ∧ ∀ o, (handshake_and_read env f fs1 r).outcome ≠ .completed o := by
  unfold handshake_and_read
  repeat' split
  all_goals simp_all

/-- A non-empty credential handed to `handshake_and_read` is the one written
back in the handshake. -/
theorem handshake_and_read_credential (env : SessionEnv) (x : Nat) (xs : List Nat)
    (fs1 : FileState) (r : Bool) :
    (handshake_and_read env (some (x :: xs)) fs1 r).credentialUsed = some (x :: xs) := by
  unfold handshake_and_read
  repeat' split
  all_goals simp_all [pyTruthyBytes]

/-- `acquire_factory_id` never removes the store entry of the session's
address: it leaves the file untouched or overwrites that entry. -/
theorem acquire_factory_id_preserves (env : SessionEnv) (v : String)
    (hs : lookupStore env.addr (load_device_data env.fileState) = some v) :
    (lookupStore env.addr (load_device_data (acquire_factory_id env).2.1)).isSome = true := by
  unfold acquire_factory_id
  by_cases ht : pyTruthyBytes (stored_factory_id env) = true
  · simp [ht, hs]
  · rcases hr : env.deviceRead with e | bs
    · simp [ht, hr, hs]
    · by_cases hz : bs.all (fun b => b == 0) = true
      · simp [ht, hr, hz, hs]
      · cases henv : env.saveOk
        · simp only [ht, hr, hz, henv, Bool.false_eq_true, if_false, save_device_data,
            writeStorageFile]
          simp [hs]
        · simp only [ht, hr, hz, henv, if_true, save_device_data, writeStorageFile]
          simp [load_device_data, readStorageFile, lookupStore_insertStore_self]
/-- C4: an unauthenticated factory-id read that yields all-zero bytes (of
any length) is treated as "credential not obtained": the session ends with
the not-in-pairing-mode failure, the storage file is unchanged (the all-zero
value is never persisted), and no credential is written in a handshake. -/
theorem C4_all_zero_read_rejected (env : SessionEnv) (bs : List Nat)
    (hf : env.found = true) (hc : env.connected = true)
    (hr : env.deviceRead = .ok bs) (hz : ∀ b ∈ bs, b = 0)
    (hatt : (process_device env).deviceReadAttempted = true) :
    (process_device env).outcome = .handshakeNoCredential
    ∧ (process_device env).fileState = env.fileState
    ∧ (process_device env).credentialUsed = none := by
  have hall : bs.all (fun b => b == 0) = true := by
    rw [List.all_eq_true]
    intro x hx
    simpa using hz x hx
  by_cases ht : pyTruthyBytes (stored_factory_id env) = true
  · exfalso
    have hacq : acquire_factory_id env = (stored_factory_id env, env.fileState, false) := by
      simp [acquire_factory_id, ht]
    have hpd : process_device env
        = handshake_and_read env (stored_factory_id env) env.fileState false := by
      simp [process_device, hf, hc, hacq]
    rw [hpd, (handshake_and_read_fields env _ env.fileState false).1] at hatt
    exact absurd hatt (by simp)
  · have hacq : acquire_factory_id env = (none, env.fileState, true) := by
      simp [acquire_factory_id, ht, hr, hall]
    have hpd : process_device env = handshake_and_read env none env.fileState true := by
      simp [process_device, hf, hc, hacq]
    rw [hpd]
    exact ⟨rfl, rfl, rfl⟩

/-- A session whose unauthenticated read yields four zero bytes. -/
def envAllZeroRead : SessionEnv :=
  ⟨"AA:BB", true, true, .missing, .ok [0, 0, 0, 0], true, true, .ok []⟩

/-- Witness for C4: a concrete all-zero read fails the handshake and leaves
the store untouched. -/
theorem C4_all_zero_read_rejected_witness :
    (process_device envAllZeroRead).outcome = .handshakeNoCredential
    ∧ (process_device envAllZeroRead).fileState = envAllZeroRead.fileState :=
  ⟨(C4_all_zero_read_rejected envAllZeroRead [0, 0, 0, 0] rfl rfl rfl
      (by decide) (by decide)).1,
   (C4_all_zero_read_rejected envAllZeroRead [0, 0, 0, 0] rfl rfl rfl
      (by decide) (by decide)).2.1⟩

/-- A session whose store holds the empty hex string for the address. -/
def envEmptyStoredHex : SessionEnv :=
  ⟨"AA:BB", true, true, .content [("AA:BB", "")], .ok [1], true, true, .ok []⟩

/-- Counterexample to C5: the empty string is a parseable credential
(`bytes.fromhex("")` succeeds, yielding zero bytes), yet when the store
holds it the session still performs the unauthenticated factory-id read,
because `process_device` tests Python truthiness, not parseability. -/
theorem C5_counterexample :
    hexDecode "" = some []
    ∧ lookupStore "AA:BB" (load_device_data envEmptyStoredHex.fileState) = some ""
    ∧ (process_device envEmptyStoredHex).deviceReadAttempted = true := by
  refine ⟨rfl, by decide, by decide⟩

/-- C5 amended: for every address whose stored credential is a hex string
decoding to a non-empty byte sequence, the session uses the stored
credential directly for the handshake: the unauthenticated factory-id read
is never performed and the storage file is unchanged. -/
theorem C5_amended_stored_credential_reused (env : SessionEnv) (h : String) (bs : List Nat)
    (hf : env.found = true) (hc : env.connected = true)
    (hs : lookupStore env.addr (load_device_data env.fileState) = some h)
    (hd : hexDecode h = some bs) (hne : bs ≠ []) :
    (process_device env).deviceReadAttempted = false
    ∧ (process_device env).credentialUsed = some bs
    ∧ (process_device env).fileState = env.fileState := by
  have hh : h ≠ "" := by
    intro e
    subst e
    have : ([] : List Nat) = bs := by simpa [hexDecode, hexDecodeAux] using hd
    exact hne this.symm
  have hstored : stored_factory_id env = some bs := by
    simp [stored_factory_id, hs, hh, hd]
  obtain ⟨x, xs, rfl⟩ : ∃ x xs, bs = x :: xs := by
    cases bs with
    | nil => exact absurd rfl hne
    | cons x xs => exact ⟨x, xs, rfl⟩
  have ht : pyTruthyBytes (some (x :: xs)) = true := rfl
  have hacq : acquire_factory_id env = (some (x :: xs), env.fileState, false) := by
    simp [acquire_factory_id, hstored, ht]
  have hpd : process_device env
      = handshake_and_read env (some (x :: xs)) env.fileState false := by
    simp [process_device, hf, hc, hacq]
  rw [hpd]
  exact ⟨(handshake_and_read_fields env _ env.fileState false).1,
    handshake_and_read_credential env x xs env.fileState false,
    (handshake_and_read_fields env _ env.fileState false).2.1⟩

/-- A session whose store holds hex "0a10" for the address; the device read
would raise if attempted. -/
def envStoredCredential : SessionEnv :=
  ⟨"AA:BB", true, true, .content [("AA:BB", "0a10")], .error (), true, true, .ok []⟩

/-- Witness for the amended C5: a stored two-byte credential is reused
without any device read. -/
theorem C5_amended_stored_credential_reused_witness :
    (process_device envStoredCredential).deviceReadAttempted = false
    ∧ (process_device envStoredCredential).credentialUsed = some [10, 16] := by
  have h := C5_amended_stored_credential_reused envStoredCredential "0a10" [10, 16]
    rfl rfl (by decide) (by decide) (by decide)
  exact ⟨h.1, h.2.1⟩

/-- C6: if the handshake credential write fails, the session ends without
reading the telemetry characteristic, without publishing, and without
completing; the credential is written at most once (no retry in-session);
and a stored credential for the address is never cleared from the store. -/
theorem C6_write_failure_ends_session (env : SessionEnv) (hw : env.writeOk = false) :
    (process_device env).telemetryAttempted = false
    ∧ (process_device env).published = false
    ∧ (∀ o, (process_device env).outcome ≠ .completed o)
    ∧ (process_device env).writeAttempts ≤ 1
    ∧ (∀ v, lookupStore env.addr (load_device_data env.fileState) = some v →
        (lookupStore env.addr (load_device_data (process_device env).fileState)).isSome
          = true) := by
  cases hf : env.found with
  | false =>
    have hpd : process_device env
        = ⟨env.fileState, false, none, 0, false, false, .notFound⟩ := by
      simp [process_device, hf]
    rw [hpd]
    refine ⟨rfl, rfl, by simp, by simp, ?_⟩
    intro v hv
    simp [hv]
  | true =>
    cases hc : env.connected with
    | false =>
      have hpd : process_device env
          = ⟨env.fileState, false, none, 0, false, false, .connectFailed⟩ := by
        simp [process_device, hf, hc]
      rw [hpd]
      refine ⟨rfl, rfl, by simp, by simp, ?_⟩
      intro v hv
      simp [hv]
    | true =>
      have hpd : process_device env
          = handshake_and_read env (acquire_factory_id env).1
              (acquire_factory_id env).2.1 (acquire_factory_id env).2.2 := by
        simp [process_device, hf, hc]
      rw [hpd]
      have hfields := handshake_and_read_fields env (acquire_factory_id env).1
        (acquire_factory_id env).2.1 (acquire_factory_id env).2.2
      have hwf := handshake_and_read_writeFail env (acquire_factory_id env).1
        (acquire_factory_id env).2.1 (acquire_factory_id env).2.2 hw
      refine ⟨hwf.1, hwf.2.1, hwf.2.2, hfields.2.2, ?_⟩
      intro v hv
      rw [hfields.2.1]
      exact acquire_factory_id_preserves env v hv

/-- A session with a stored credential whose handshake write fails. -/
def envWriteRejected : SessionEnv :=
  ⟨"AA:BB", true, true, .content [("AA:BB", "0a10")], .error (), true, false, .ok []⟩

/-- Witness for C6: a concrete rejected handshake write reads no telemetry,
publishes nothing, and keeps the stored credential. -/
theorem C6_write_failure_ends_session_witness :
    (process_device envWriteRejected).telemetryAttempted = false
    ∧ (process_device envWriteRejected).published = false
    ∧ (lookupStore "AA:BB"
        (load_device_data (process_device envWriteRejected).fileState)).isSome = true := by
  have h := C6_write_failure_ends_session envWriteRejected rfl
  exact ⟨h.1, h.2.1, h.2.2.2.2 "0a10" (by decide)⟩
/-- Every device of the list yields exactly one event, in list order,
whether or not its session failed. -/
theorem run_cycle_events (fl : String → Bool) :
    ∀ l : List String,
      (l.map fun d =>
        if fl d then PollEvent.errorLogged d else PollEvent.processed d).map eventDevice
      = l.map some := by
  intro l
  induction l with
  | nil => rfl
  | cons d rest ih =>
    by_cases h : fl d <;> simp [eventDevice, h, ih]

/-- C7: the scheduler loop never terminates and isolates per-device
failures: for every cycle count `n` the trace extends by exactly one more
cycle, and every cycle visits each configured device exactly once in
configuration order — an exception for one device only changes its event
from `processed` to `errorLogged` — and ends by sleeping for the poll
interval. -/
theorem C7_scheduler_loop (devices : List String) (fails : Nat → String → Bool)
    (poll : Nat) (n : Nat) :
    run_trace devices fails poll (n + 1)
      = run_trace devices fails poll n ++ run_cycle devices (fails n) poll
    ∧ (run_cycle devices (fails n) poll).map eventDevice
        = devices.map some ++ [none]
    ∧ (run_cycle devices (fails n) poll).getLast? = some (.slept poll) := by
  refine ⟨rfl, ?_, ?_⟩
  · simp only [run_cycle, List.map_append, run_cycle_events (fails n) devices]
    rfl
  · simp [run_cycle]
